import Mathlib

/-!
Shallow embedding of the zilol interaction core (gesture recognition, touch
dispatch, scroll physics, property animation) from the C++ sources
`TouchDispatcher.h`, `GestureRecognizer.h`, `ScrollEngine.h` and
`AnimationTicker.h`, together with theorems settling the specification
claims about it.

Modelling conventions:
 - C++ `float`/`double` values are modelled as real numbers; the purely
   rational hit-testing geometry of `TouchDispatcher` is modelled over `ℚ`
   so that concrete runs are decidable.
 - Mutating member functions become functions from the object state to the
   new object state; invocations of user-supplied (JS) callbacks are
   recorded in an explicit event trace.
 - An exception thrown by a user callback is modelled by a `Bool` flag per
   registered callback; a call site that wraps the invocation in
   `try {...} catch (...) {}` absorbs it, an unwrapped call site lets it
   escape, which aborts the remainder of the member function.
-/

namespace Zilol

/- ----------------------------------------------------------------------
   TouchDispatcher.h — hit testing (`TouchDispatcher::hitTestNode`)
   ---------------------------------------------------------------------- -/

/-- Per-node layout rectangle (`node->layout`), absolute coordinates. -/
structure Layout where
  absoluteX : ℚ
  absoluteY : ℚ
  width : ℚ
  height : ℚ
  deriving Repr, DecidableEq

/-- The node type tag; hit testing only distinguishes scroll containers
(`skia::NodeType::Scroll`) from everything else. -/
inductive NodeType where
  | scroll
  | other
  deriving Repr, DecidableEq

/-- The slice of `skia::SkiaNode` that `TouchDispatcher::hitTestNode`
reads: visibility, display string, layout, scroll offsets, type tag,
touchable flag, id and children (in paint order). -/
inductive SkiaNode where
  | mk (id : Int) (visible : Bool) (display : String) (layout : Layout)
       (nodeType : NodeType) (scrollX scrollY : ℚ) (touchable : Bool)
       (children : List SkiaNode)

def SkiaNode.id : SkiaNode → Int
  | .mk i _ _ _ _ _ _ _ _ => i

def SkiaNode.visible : SkiaNode → Bool
  | .mk _ v _ _ _ _ _ _ _ => v

def SkiaNode.display : SkiaNode → String
  | .mk _ _ d _ _ _ _ _ _ => d

def SkiaNode.layout : SkiaNode → Layout
  | .mk _ _ _ l _ _ _ _ _ => l

def SkiaNode.nodeType : SkiaNode → NodeType
  | .mk _ _ _ _ t _ _ _ _ => t

def SkiaNode.scrollX : SkiaNode → ℚ
  | .mk _ _ _ _ _ sx _ _ _ => sx

def SkiaNode.scrollY : SkiaNode → ℚ
  | .mk _ _ _ _ _ _ sy _ _ => sy

def SkiaNode.touchable : SkiaNode → Bool
  | .mk _ _ _ _ _ _ _ tc _ => tc

def SkiaNode.children : SkiaNode → List SkiaNode
  | .mk _ _ _ _ _ _ _ _ cs => cs

mutual

/-- Model of `TouchDispatcher::hitTestNode(node, x, y)`.  `cb nodeId` models
`callbacks_.count(node->id)` (whether a press callback is registered for
the node).  For a scroll container the touch point is translated from
viewport space into content space (`childX = x + scrollX`,
`childY = y + scrollY`) before the children are tested. -/
def hitTestNode (cb : Int → Bool) : SkiaNode → ℚ → ℚ → Option SkiaNode
  | node@(.mk id visible display layout nodeType scrollX scrollY touchable children), x, y =>
    if visible = false then none
    else if display = "none" then none
    else if x < layout.absoluteX ∨ x > layout.absoluteX + layout.width ∨
            y < layout.absoluteY ∨ y > layout.absoluteY + layout.height then
      none
    else
      let childX := if nodeType = NodeType.scroll then x + scrollX else x
      let childY := if nodeType = NodeType.scroll then y + scrollY else y
      match hitTestChildren cb children childX childY with
      | some hit => some hit
      | none => if touchable || cb id then some node else none

/-- The `for (int i = size-1; i >= 0; i--)` loop of `hitTestNode`: children
are tested front-to-back (reverse insertion order), the first hit wins, so
a later sibling takes priority over an earlier one. -/
def hitTestChildren (cb : Int → Bool) (cs : List SkiaNode) (x y : ℚ) : Option SkiaNode :=
  match cs with
  | [] => none
  | c :: rest =>
    match hitTestChildren cb rest x y with
    | some hit => some hit
    | none => hitTestNode cb c x y

end

/-- A dispatcher with no registered press callbacks. -/
def noCallbacks : Int → Bool := fun _ => false

/-- The concrete child of the hit-testing scenario: laid out in content
space at y = 60 (height 40), touchable. -/
def hitChild : SkiaNode :=
  .mk 2 true "flex" ⟨0, 60, 100, 40⟩ NodeType.other 0 0 true []

/-- The concrete scroll container of the hit-testing scenario: at the
viewport origin (100 × 100), scrolled by (0, 50). -/
def hitContainer : SkiaNode :=
  .mk 1 true "flex" ⟨0, 0, 100, 100⟩ NodeType.scroll 0 50 false [hitChild]


/- ----------------------------------------------------------------------
   GestureRecognizer.h — gesture state machines
   ---------------------------------------------------------------------- -/

/-- Model of `GestureState` from `GestureRecognizer.h`. -/
inductive GestureState where
  | possible
  | began
  | changed
  | ended
  | cancelled
  | failed
  deriving Repr, DecidableEq

/-- Model of `GestureEvent`: the ephemeral payload passed to JS callbacks. -/
structure GestureEvent where
  x : ℝ := 0
  y : ℝ := 0
  absoluteX : ℝ := 0
  absoluteY : ℝ := 0
  translationX : ℝ := 0
  translationY : ℝ := 0
  velocityX : ℝ := 0
  velocityY : ℝ := 0
  scale : ℝ := 1
  rotation : ℝ := 0
  focalX : ℝ := 0
  focalY : ℝ := 0
  numberOfPointers : ℤ := 0

/-- A user-callback invocation performed by a recognizer.  The source
invokes them through `fireStart` / `fireUpdate` / `fireEnd`, each of which
wraps the JS call in `try { ... } catch (...) {}`, so an exception thrown
by the callback never escapes the recognizer and never alters its control
flow; consequently the recognizer models below are total state functions
and the trace records every invocation. -/
inductive GFire where
  | start (e : GestureEvent)
  | update (e : GestureEvent)
  | ended (e : GestureEvent)

/-- Model of `TouchPoint` from `GestureRecognizer.h`. -/
structure TouchPointR where
  pointerId : ℤ := 0
  x : ℝ := 0
  y : ℝ := 0
  startX : ℝ := 0
  startY : ℝ := 0
  startTimeMs : ℝ := 0
  lastTimeMs : ℝ := 0
  active : Bool := false

/-- Models the call-site shape of `GestureRecognizer::fireStart` /
`fireUpdate` / `fireEnd`, `TouchDispatcher`'s press-callback invocations
and `AnimationTicker::tickAll`'s completion-callback invocation: the user
callback runs inside `try { ... } catch (...) {}`, so whether it throws
(`cbThrows`), the exception never escapes the call site (result: did an
exception escape?). -/
def callSwallowed (cbThrows : Bool) : Bool := false

/-- Models the call-site shape of `ScrollEngine::commitOffset`,
`ScrollEngine::fireScrollEnd` and the drag callbacks in
`ScrollEngine::onTouchBegan` / `onTouchEnded`: the user callback is
invoked directly with no exception handler, so a thrown exception escapes
the call site and aborts the remainder of the member function. -/
def callUnguarded (cbThrows : Bool) : Bool := cbThrows

/-- Model of `PanRecognizer` state (`GestureRecognizer.h`): one tracked pointer,
activation threshold (default 10 px), previous sample for instantaneous
velocity. -/
structure PanRecognizer where
  state : GestureState := .possible
  activationThreshold : ℝ := 10
  touch : TouchPointR := {}
  prevX : ℝ := 0
  prevY : ℝ := 0
  prevTimeMs : ℝ := 0

/-- Model of `PanRecognizer::onTouchEvent(phase, x, y, pointerId)`;
`now` models `nowMs()`.  Returns the new recognizer state and the list of
callback invocations fired during the call. -/
noncomputable def PanRecognizer.onTouchEvent (r : PanRecognizer) (phase : ℤ)
    (x y : ℝ) (pointerId : ℤ) (now : ℝ) : PanRecognizer × List GFire :=
  if phase = 0 then
    -- began
    ({ r with
        touch := { pointerId := pointerId, x := x, y := y, startX := x, startY := y,
                   startTimeMs := now, lastTimeMs := now, active := true }
        prevX := x, prevY := y, prevTimeMs := now
        state := .possible }, [])
  else if phase = 1 then
    -- moved
    if r.touch.active = false ∨ r.touch.pointerId ≠ pointerId then (r, [])
    else
      let r1 := { r with touch := { r.touch with x := x, y := y } }
      let dx := x - r1.touch.startX
      let dy := y - r1.touch.startY
      let dist := Real.sqrt (dx * dx + dy * dy)
      if r1.state = .possible ∧ dist ≥ r1.activationThreshold then
        -- state = Began; fireStart; state = Changed
        ({ r1 with state := .changed, prevX := x, prevY := y, prevTimeMs := now },
         [GFire.start { x := x, y := y, absoluteX := x, absoluteY := y,
                        translationX := dx, translationY := dy, numberOfPointers := 1 }])
      else if r1.state = .changed then
        let dt := (now - r1.prevTimeMs) / 1000
        let vx := if dt > 0 then (x - r1.prevX) / dt else 0
        let vy := if dt > 0 then (y - r1.prevY) / dt else 0
        ({ r1 with prevX := x, prevY := y, prevTimeMs := now },
         [GFire.update { x := x, y := y, absoluteX := x, absoluteY := y,
                         translationX := dx, translationY := dy,
                         velocityX := vx, velocityY := vy, numberOfPointers := 1 }])
      else
        ({ r1 with prevX := x, prevY := y, prevTimeMs := now }, [])
  else if phase = 2 ∨ phase = 3 then
    -- ended / cancelled
    if r.touch.active = false ∨ r.touch.pointerId ≠ pointerId then (r, [])
    else
      let r1 := { r with touch := { r.touch with active := false } }
      let fires :=
        if r1.state = .changed ∨ r1.state = .began then
          let dt := (now - r1.prevTimeMs) / 1000
          let vx := if dt > 0 then (x - r1.prevX) / dt else 0
          let vy := if dt > 0 then (y - r1.prevY) / dt else 0
          [GFire.ended { x := x, y := y, absoluteX := x, absoluteY := y,
                         translationX := x - r1.touch.startX,
                         translationY := y - r1.touch.startY,
                         velocityX := vx, velocityY := vy, numberOfPointers := 0 }]
        else []
      ({ r1 with state := if phase = 2 then .ended else .cancelled }, fires)
  else (r, [])

/-- Model of `TapRecognizer` state (`GestureRecognizer.h`). -/
structure TapRecognizer where
  state : GestureState := .possible
  requiredTaps : ℤ := 1
  maxDistance : ℝ := 15
  maxDurationMs : ℝ := 300
  maxDelayMs : ℝ := 300
  touch : TouchPointR := {}
  tapCount : ℤ := 0
  lastTapTimeMs : ℝ := 0

/-- Model of `TapRecognizer::onTouchEvent(phase, x, y, pointerId)`;
`now` models `nowMs()`. -/
noncomputable def TapRecognizer.onTouchEvent (r : TapRecognizer) (phase : ℤ)
    (x y : ℝ) (pointerId : ℤ) (now : ℝ) : TapRecognizer × List GFire :=
  if phase = 0 then
    -- began: track the touch; reset the count if too long since last tap
    let r1 := { r with
      touch := { r.touch with
                  pointerId := pointerId, x := x, y := y,
                  startX := x, startY := y, startTimeMs := now, active := true } }
    if r1.tapCount > 0 ∧ now - r1.lastTapTimeMs > r1.maxDelayMs then
      ({ r1 with tapCount := 0 }, [])
    else (r1, [])
  else if phase = 1 then
    -- moved: fail if moved too far
    if r.touch.active = false ∨ r.touch.pointerId ≠ pointerId then (r, [])
    else
      let dx := x - r.touch.startX
      let dy := y - r.touch.startY
      if Real.sqrt (dx * dx + dy * dy) > r.maxDistance then
        ({ r with touch := { r.touch with active := false }, tapCount := 0,
                  state := .failed }, [])
      else (r, [])
  else if phase = 2 then
    -- ended
    if r.touch.active = false ∨ r.touch.pointerId ≠ pointerId then (r, [])
    else
      let r1 := { r with touch := { r.touch with active := false } }
      let holdMs := now - r1.touch.startTimeMs
      if holdMs > r1.maxDurationMs then
        -- held too long: not a tap
        ({ r1 with tapCount := 0, state := .failed }, [])
      else
        let r2 := { r1 with tapCount := r1.tapCount + 1, lastTapTimeMs := now }
        if r2.tapCount ≥ r2.requiredTaps then
          ({ r2 with state := .ended, tapCount := 0 },
           [GFire.ended { x := x, y := y, absoluteX := x, absoluteY := y,
                          numberOfPointers := 0 }])
        else (r2, [])
  else if phase = 3 then
    -- cancelled
    ({ r with touch := { r.touch with active := false }, tapCount := 0,
              state := .cancelled }, [])
  else (r, [])

/-- Euclidean distance between two tracked points
(`PinchRecognizer::distance`). -/
noncomputable def touchDistance (a b : TouchPointR) : ℝ :=
  Real.sqrt ((a.x - b.x) * (a.x - b.x) + (a.y - b.y) * (a.y - b.y))

/-- Model of `RotationRecognizer::angle`: `atan2(b.y - a.y, b.x - a.x)`, modelled by
the complex argument of the vector from `a` to `b`. -/
noncomputable def touchAngle (a b : TouchPointR) : ℝ :=
  Complex.arg ⟨b.x - a.x, b.y - a.y⟩

/-- Model of `PinchRecognizer` state (`GestureRecognizer.h`): two tracked points,
baseline inter-point distance. -/
structure PinchRecognizer where
  state : GestureState := .possible
  touch1 : TouchPointR := {}
  touch2 : TouchPointR := {}
  numActive : ℤ := 0
  initialDist : ℝ := 1

/-- The shared `updateTouch` helper of `PinchRecognizer` and
`RotationRecognizer`, applied to one of the two slots. -/
def updateSlot (t : TouchPointR) (pid : ℤ) (x y : ℝ) : TouchPointR :=
  if t.active = true ∧ t.pointerId = pid then { t with x := x, y := y } else t

/-- Model of `PinchRecognizer::onTouchEvent(phase, x, y, pointerId)`. -/
noncomputable def PinchRecognizer.onTouchEvent (r : PinchRecognizer) (phase : ℤ)
    (x y : ℝ) (pointerId : ℤ) : PinchRecognizer × List GFire :=
  if phase = 0 then
    -- began: track the pointer only if fewer than two are active
    let r1 :=
      if r.numActive < 2 then
        if r.numActive = 0 then
          { r with touch1 := { r.touch1 with
                                pointerId := pointerId, x := x, y := y,
                                startX := x, startY := y, active := true },
                   numActive := r.numActive + 1 }
        else
          { r with touch2 := { r.touch2 with
                                pointerId := pointerId, x := x, y := y,
                                startX := x, startY := y, active := true },
                   numActive := r.numActive + 1 }
      else r
    if r1.numActive = 2 then
      let d := touchDistance r1.touch1 r1.touch2
      let d1 := if d < 1 then 1 else d
      ({ r1 with initialDist := d1, state := .changed },
       [GFire.start { scale := 1, focalX := (r1.touch1.x + r1.touch2.x) / 2,
                      focalY := (r1.touch1.y + r1.touch2.y) / 2,
                      numberOfPointers := 2 }])
    else (r1, [])
  else if phase = 1 then
    -- moved
    let r1 := { r with touch1 := updateSlot r.touch1 pointerId x y,
                       touch2 := updateSlot r.touch2 pointerId x y }
    if r1.state = .changed ∧ r1.numActive = 2 then
      let d := touchDistance r1.touch1 r1.touch2
      (r1, [GFire.update { scale := d / r1.initialDist,
                           focalX := (r1.touch1.x + r1.touch2.x) / 2,
                           focalY := (r1.touch1.y + r1.touch2.y) / 2,
                           numberOfPointers := 2 }])
    else (r1, [])
  else if phase = 2 ∨ phase = 3 then
    -- ended / cancelled
    let fired :=
      if r.state = .changed ∧ r.numActive = 2 then
        let d := touchDistance r.touch1 r.touch2
        some (GFire.ended { scale := d / r.initialDist,
                            focalX := (r.touch1.x + r.touch2.x) / 2,
                            focalY := (r.touch1.y + r.touch2.y) / 2,
                            numberOfPointers := r.numActive - 1 })
      else none
    let r1 := if fired.isSome then { r with state := .ended } else r
    let r2 :=
      if r1.touch1.active = true ∧ r1.touch1.pointerId = pointerId then
        { r1 with touch1 := { r1.touch1 with active := false },
                  numActive := r1.numActive - 1 }
      else if r1.touch2.active = true ∧ r1.touch2.pointerId = pointerId then
        { r1 with touch2 := { r1.touch2 with active := false },
                  numActive := r1.numActive - 1 }
      else r1
    (r2, fired.toList)
  else (r, [])

/-- Model of `RotationRecognizer` state (`GestureRecognizer.h`): two tracked
points, baseline angle. -/
structure RotationRecognizer where
  state : GestureState := .possible
  touch1 : TouchPointR := {}
  touch2 : TouchPointR := {}
  numActive : ℤ := 0
  initialAngle : ℝ := 0

/-- Model of `RotationRecognizer::onTouchEvent(phase, x, y, pointerId)`. -/
noncomputable def RotationRecognizer.onTouchEvent (r : RotationRecognizer) (phase : ℤ)
    (x y : ℝ) (pointerId : ℤ) : RotationRecognizer × List GFire :=
  if phase = 0 then
    let r1 :=
      if r.numActive < 2 then
        if r.numActive = 0 then
          { r with touch1 := { r.touch1 with
                                pointerId := pointerId, x := x, y := y, active := true },
                   numActive := r.numActive + 1 }
        else
          { r with touch2 := { r.touch2 with
                                pointerId := pointerId, x := x, y := y, active := true },
                   numActive := r.numActive + 1 }
      else r
    if r1.numActive = 2 then
      ({ r1 with initialAngle := touchAngle r1.touch1 r1.touch2, state := .changed },
       [GFire.start { rotation := 0, focalX := (r1.touch1.x + r1.touch2.x) / 2,
                      focalY := (r1.touch1.y + r1.touch2.y) / 2,
                      numberOfPointers := 2 }])
    else (r1, [])
  else if phase = 1 then
    let r1 := { r with touch1 := updateSlot r.touch1 pointerId x y,
                       touch2 := updateSlot r.touch2 pointerId x y }
    if r1.state = .changed ∧ r1.numActive = 2 then
      (r1, [GFire.update { rotation := touchAngle r1.touch1 r1.touch2 - r1.initialAngle,
                           focalX := (r1.touch1.x + r1.touch2.x) / 2,
                           focalY := (r1.touch1.y + r1.touch2.y) / 2,
                           numberOfPointers := 2 }])
    else (r1, [])
  else if phase = 2 ∨ phase = 3 then
    let fired :=
      if r.state = .changed ∧ r.numActive = 2 then
        some (GFire.ended { rotation := touchAngle r.touch1 r.touch2 - r.initialAngle,
                            focalX := (r.touch1.x + r.touch2.x) / 2,
                            focalY := (r.touch1.y + r.touch2.y) / 2,
                            numberOfPointers := r.numActive - 1 })
      else none
    let r1 := if fired.isSome then { r with state := .ended } else r
    let r2 :=
      if r1.touch1.active = true ∧ r1.touch1.pointerId = pointerId then
        { r1 with touch1 := { r1.touch1 with active := false },
                  numActive := r1.numActive - 1 }
      else if r1.touch2.active = true ∧ r1.touch2.pointerId = pointerId then
        { r1 with touch2 := { r1.touch2 with active := false },
                  numActive := r1.numActive - 1 }
      else r1
    (r2, fired.toList)
  else (r, [])


/- ----------------------------------------------------------------------
   ScrollEngine.h — VelocityTracker
   ---------------------------------------------------------------------- -/

/-- Model of `VelSample`: one (timestamp in ms, position in px) sample. -/
structure VelSample where
  timestamp : ℝ
  position : ℝ

/-- Model of `VelocityTracker` state: the rolling sample vector and the
last-accepted timestamp. -/
structure VelocityTracker where
  samples : List VelSample := []
  lastTs : ℝ := 0

/-- Model of `VelocityTracker::addPoint(timestamp, position)`: rejects a sample
whose timestamp is not past the last accepted one while at least one
sample is stored; otherwise appends it and, past the capacity of
`MAX_SAMPLES = 20`, erases the oldest sample. -/
noncomputable def VelocityTracker.addPoint (t : VelocityTracker)
    (timestamp position : ℝ) : VelocityTracker :=
  if timestamp ≤ t.lastTs ∧ t.samples.isEmpty = false then t
  else
    let appended := t.samples ++ [⟨timestamp, position⟩]
    { samples := if appended.length > 20 then appended.tail else appended,
      lastTs := timestamp }

/-- Model of `VelocityTracker::pruneOld`: drops leading samples older than 150 ms
(`HISTORY_WINDOW_MS`) before the newest sample.  The `while` loop erases
from the front while the head is older than the cutoff, which is computed
once from `samples_.back()`. -/
noncomputable def VelocityTracker.pruneOld (t : VelocityTracker) : VelocityTracker :=
  match t.samples.getLast? with
  | none => t
  | some last =>
    { t with samples := t.samples.dropWhile (fun s => s.timestamp < last.timestamp - 150) }

/-- Model of `VelocityTracker::getVelocity()`: prunes, requires at least
`MIN_SAMPLES = 3` samples, then returns the quadratically recency-weighted
average of consecutive-pair velocities (pairs closer than 0.5 ms are
skipped), scaled from px/ms to px/sec.  The C++ member also stores the
pruned vector back; the engine model keeps the pruned tracker explicitly
where that matters. -/
noncomputable def VelocityTracker.getVelocity (t : VelocityTracker) : ℝ :=
  let t1 := t.pruneOld
  if t1.samples.length < 3 then 0
  else
    let newest := (t1.samples.getLast?).getD ⟨0, 0⟩
    let sums := (t1.samples.zip t1.samples.tail).foldl
      (fun (acc : ℝ × ℝ) (p : VelSample × VelSample) =>
        let dt := p.2.timestamp - p.1.timestamp
        if dt ≤ 0.5 then acc
        else
          let vel := (p.2.position - p.1.position) / dt
          let age := newest.timestamp - p.2.timestamp
          let weight := max 0 (1 - age / 150)
          (acc.1 + weight * weight, acc.2 + vel * (weight * weight)))
      (0, 0)
    if sums.1 > 0 then (sums.2 / sums.1) * 1000 else 0

/-- Model of `VelocityTracker::reset()`. -/
def VelocityTracker.reset : VelocityTracker := {}

/- ----------------------------------------------------------------------
   ScrollEngine.h — stateless physics functions
   ---------------------------------------------------------------------- -/

/-- Model of `clampf(v, lo, hi)`. -/
noncomputable def clampf (v lo hi : ℝ) : ℝ :=
  if v < lo then lo else if v > hi then hi else v

/-- Model of `PhysicsResult`. -/
structure PhysicsResult where
  offset : ℝ
  velocity : ℝ
  finished : Bool

/-- The stepped velocity of `decelerationStep`:
`nextVel = velocity * rate^dt` (`friction = pow(rate, dtMs)`). -/
noncomputable def decelNextVel (velocity dtMs rate : ℝ) : ℝ :=
  velocity * rate ^ dtMs

/-- The displacement of `decelerationStep`: the closed-form integral
`velocity * (rate^dt - 1) / (ln(rate) * 1000)`, with the linear fallback
`velocity * dt / 1000` when `ln(rate) = 0`. -/
noncomputable def decelDisplacement (velocity dtMs rate : ℝ) : ℝ :=
  if Real.log rate ≠ 0 then
    velocity * (rate ^ dtMs - 1) / (Real.log rate * 1000)
  else velocity * dtMs / 1000

/-- Model of `decelerationStep(offset, velocity, dtMs, rate, minOff, maxOff)`:
exponential deceleration; finishes with a clamped offset and zero velocity
when the stepped speed drops under `VELOCITY_THRESHOLD = 20` px/sec, and
finishes with the unclamped offset and preserved velocity when the new
offset overshoots a boundary. -/
noncomputable def decelerationStep (offset velocity dtMs rate minOff maxOff : ℝ) :
    PhysicsResult :=
  let nextVel := decelNextVel velocity dtMs rate
  let nextOff := offset + decelDisplacement velocity dtMs rate
  if |nextVel| < 20 then ⟨clampf nextOff minOff maxOff, 0, true⟩
  else if nextOff < minOff ∨ nextOff > maxOff then ⟨nextOff, nextVel, true⟩
  else ⟨nextOff, nextVel, false⟩

/-- The next offset of `springStep`:
`(displacement + C2*dtSec) * exp(-omega*dtSec) + target` with
`displacement = offset - target`, `C2 = velocity + omega*displacement`,
`dtSec = dtMs / 1000`. -/
noncomputable def springNextOff (offset velocity target dtMs omega : ℝ) : ℝ :=
  let dtSec := dtMs / 1000
  let displacement := offset - target
  let c2 := velocity + omega * displacement
  (displacement + c2 * dtSec) * Real.exp (-omega * dtSec) + target

/-- The next velocity of `springStep`:
`(C2 - omega*(displacement + C2*dtSec)) * exp(-omega*dtSec)`. -/
noncomputable def springNextVel (offset velocity target dtMs omega : ℝ) : ℝ :=
  let dtSec := dtMs / 1000
  let displacement := offset - target
  let c2 := velocity + omega * displacement
  (c2 - omega * (displacement + c2 * dtSec)) * Real.exp (-omega * dtSec)

/-- Model of `springStep(offset, velocity, target, dtMs, omega = SPRING_OMEGA = 20)`:
analytical critically-damped spring step; once the next state is within
`SPRING_SETTLE_THRESHOLD = 0.5` px and `SPRING_VELOCITY_THRESHOLD = 20`
px/sec of the target it finishes, snapping exactly to the target with zero
velocity. -/
noncomputable def springStep (offset velocity target dtMs : ℝ) (omega : ℝ := 20) :
    PhysicsResult :=
  let nextOff := springNextOff offset velocity target dtMs omega
  let nextVel := springNextVel offset velocity target dtMs omega
  if |nextOff - target| < 0.5 ∧ |nextVel| < 20 then ⟨target, 0, true⟩
  else ⟨nextOff, nextVel, false⟩

/-- Model of `rubberBandClamp(delta, overscroll, viewportSize)` with
`RUBBER_BAND_COEFF = 0.55`. -/
noncomputable def rubberBandClamp (delta overscroll viewportSize : ℝ) : ℝ :=
  if viewportSize ≤ 0 then 0
  else delta * 0.55 / (1 + |overscroll| * 0.55 / viewportSize)

/-- Model of `std::round` rounds to the nearest integer with ties away from zero. -/
noncomputable def croundf (x : ℝ) : ℝ :=
  if x < 0 then -(⌊-x + 1 / 2⌋ : ℤ) else ((⌊x + 1 / 2⌋ : ℤ) : ℝ)

/-- Model of `findSnapTarget(offset, velocity, interval, minOff, maxOff, rate)`:
projects the deceleration resting position and rounds it to the nearest
multiple of the snap interval, clamped into bounds. -/
noncomputable def findSnapTarget (offset velocity interval minOff maxOff rate : ℝ) : ℝ :=
  if interval ≤ 0 then clampf offset minOff maxOff
  else
    let lnRate := Real.log rate
    let proj := if lnRate ≠ 0 ∧ |velocity| > 20 then
        offset + velocity / (-lnRate * 1000)
      else offset
    clampf (croundf (proj / interval) * interval) minOff maxOff

/-- Model of `findPageTarget(offset, velocity, viewportSize, minOff, maxOff)`:
snaps to the current page, or the adjacent one when |velocity| exceeds
300 px/sec, clamped to the page range and content bounds. -/
noncomputable def findPageTarget (offset velocity viewportSize minOff maxOff : ℝ) : ℝ :=
  if viewportSize ≤ 0 then clampf offset minOff maxOff
  else
    let currentPage := croundf (offset / viewportSize)
    let targetPage :=
      if velocity > 300 then currentPage + 1
      else if velocity < -300 then currentPage - 1
      else currentPage
    let maxPage := ((⌈maxOff / viewportSize⌉ : ℤ) : ℝ)
    clampf (clampf targetPage 0 maxPage * viewportSize) minOff maxOff

/- ----------------------------------------------------------------------
   ScrollEngine.h — per-node scroll controller
   ---------------------------------------------------------------------- -/

/-- Model of `ScrollPhase`. -/
inductive ScrollPhase where
  | idle
  | dragging
  | decelerating
  | bouncing
  | snapping
  deriving Repr, DecidableEq

/-- Model of `ScrollEngine` state.  The four user callbacks set from JS are
represented by whether each one, when invoked, throws
(`...Throws = true`); the callback invocations themselves are recorded in
the event trace of each member function. -/
structure ScrollEngine where
  horizontal : Bool := false
  bounces : Bool := true
  scrollEnabled : Bool := true
  pagingEnabled : Bool := false
  snapInterval : ℝ := 0
  decelerationRate : ℝ := 0.998
  phase : ScrollPhase := .idle
  offsetX : ℝ := 0
  offsetY : ℝ := 0
  velocityX : ℝ := 0
  velocityY : ℝ := 0
  snapTargetX : ℝ := 0
  snapTargetY : ℝ := 0
  lastTimestamp : ℝ := 0
  viewportW : ℝ := 0
  viewportH : ℝ := 0
  contentW : ℝ := 0
  contentH : ℝ := 0
  trackerX : VelocityTracker := {}
  trackerY : VelocityTracker := {}
  lastTouchX : ℝ := 0
  lastTouchY : ℝ := 0
  activePointerId : ℤ := -1
  onScrollThrows : Bool := false
  onScrollEndThrows : Bool := false
  onScrollBeginDragThrows : Bool := false
  onScrollEndDragThrows : Bool := false

/-- A user-callback invocation performed by the scroll engine. -/
inductive ScrollEvent where
  | scroll (x y : ℝ)
  | scrollEnd (x y : ℝ)
  | beginDrag
  | endDrag

/-- Result of one `ScrollEngine` member function: the new engine state,
the trace of callback invocations, and whether an exception thrown by one
of the (unguarded) callbacks escaped the member function. -/
structure EngineStep where
  engine : ScrollEngine
  events : List ScrollEvent
  escaped : Bool

/-- Model of `ScrollEngine::maxScrollX`. -/
noncomputable def ScrollEngine.maxScrollX (e : ScrollEngine) : ℝ :=
  max 0 (e.contentW - e.viewportW)

/-- Model of `ScrollEngine::maxScrollY`. -/
noncomputable def ScrollEngine.maxScrollY (e : ScrollEngine) : ℝ :=
  max 0 (e.contentH - e.viewportH)

/-- Model of `ScrollEngine::isOverscrolled(offset, min, max)`. -/
def ScrollEngine.isOverscrolled (offset lo hi : ℝ) : Prop :=
  offset < lo ∨ offset > hi

noncomputable instance (offset lo hi : ℝ) :
    Decidable (ScrollEngine.isOverscrolled offset lo hi) := by
  unfold ScrollEngine.isOverscrolled; infer_instance

/-- Model of `ScrollEngine::startBounce`. -/
def ScrollEngine.startBounce (e : ScrollEngine) : ScrollEngine :=
  { e with phase := .bouncing, lastTimestamp := 0 }

/-- Model of `ScrollEngine::startSnap(isPaging)`. -/
noncomputable def ScrollEngine.startSnap (e : ScrollEngine) (isPaging : Bool) :
    ScrollEngine :=
  let maxX := e.maxScrollX
  let maxY := e.maxScrollY
  let e1 :=
    if e.horizontal then
      { e with
        snapTargetX :=
          if isPaging then findPageTarget e.offsetX e.velocityX e.viewportW 0 maxX
          else findSnapTarget e.offsetX e.velocityX e.snapInterval 0 maxX e.decelerationRate,
        snapTargetY := e.offsetY }
    else
      { e with
        snapTargetY :=
          if isPaging then findPageTarget e.offsetY e.velocityY e.viewportH 0 maxY
          else findSnapTarget e.offsetY e.velocityY e.snapInterval 0 maxY e.decelerationRate,
        snapTargetX := e.offsetX }
  { e1 with phase := .snapping, lastTimestamp := 0 }

/-- Model of `ScrollEngine::startDeceleration`: below `VELOCITY_THRESHOLD = 20`
px/sec the engine goes straight to Idle and fires the scroll-end callback
(an unguarded call — its exception escapes). -/
noncomputable def ScrollEngine.startDeceleration (e : ScrollEngine) : EngineStep :=
  let vel := if e.horizontal then e.velocityX else e.velocityY
  if |vel| < 20 then
    let e1 := { e with phase := .idle }
    ⟨e1, [.scrollEnd e1.offsetX e1.offsetY], callUnguarded e1.onScrollEndThrows⟩
  else ⟨{ e with phase := .decelerating, lastTimestamp := 0 }, [], false⟩

/-- Model of `ScrollEngine::onTouchEnded(pointerId, timestamp)`.  Fires the
end-drag callback, overwrites both velocities with the sign-inverted
tracker velocities (the trackers keep their pruned sample lists, as
`getVelocity` prunes in place), then picks the next phase: Bouncing on an
out-of-bounds active-axis offset, Snapping for paging, Snapping for a
positive snap interval, otherwise deceleration (or straight to Idle). -/
noncomputable def ScrollEngine.onTouchEnded (e : ScrollEngine) (pointerId : ℤ) :
    EngineStep :=
  if e.phase ≠ .dragging then ⟨e, [], false⟩
  else if pointerId ≠ e.activePointerId then ⟨e, [], false⟩
  else
    let e1 := { e with activePointerId := -1 }
    -- `if (onScrollEndDragCallback) onScrollEndDragCallback();` — unguarded
    if callUnguarded e1.onScrollEndDragThrows then ⟨e1, [.endDrag], true⟩
    else
      let e2 := { e1 with
        velocityX := -(e1.trackerX.getVelocity),
        velocityY := -(e1.trackerY.getVelocity),
        trackerX := e1.trackerX.pruneOld,
        trackerY := e1.trackerY.pruneOld }
      let maxX := e2.maxScrollX
      let maxY := e2.maxScrollY
      if e2.horizontal = true ∧ ScrollEngine.isOverscrolled e2.offsetX 0 maxX then
        ⟨e2.startBounce, [.endDrag], false⟩
      else if e2.horizontal = false ∧ ScrollEngine.isOverscrolled e2.offsetY 0 maxY then
        ⟨e2.startBounce, [.endDrag], false⟩
      else if e2.pagingEnabled then ⟨e2.startSnap true, [.endDrag], false⟩
      else if e2.snapInterval > 0 then ⟨e2.startSnap false, [.endDrag], false⟩
      else
        let d := e2.startDeceleration
        ⟨d.engine, .endDrag :: d.events, d.escaped⟩

/-- Model of `ScrollEngine::stepDeceleration(dt, maxX, maxY)`: steps the active
axis;  on a finished step it chains into Bouncing or Snapping (returning
false) or reports completion. -/
noncomputable def ScrollEngine.stepDeceleration (e : ScrollEngine) (dt maxX maxY : ℝ) :
    ScrollEngine × Bool :=
  if e.horizontal then
    let s := decelerationStep e.offsetX e.velocityX dt e.decelerationRate 0 maxX
    let e1 := { e with offsetX := s.offset, velocityX := s.velocity }
    if s.finished then
      if ScrollEngine.isOverscrolled e1.offsetX 0 maxX then (e1.startBounce, false)
      else if e1.snapInterval > 0 then (e1.startSnap false, false)
      else (e1, true)
    else (e1, false)
  else
    let s := decelerationStep e.offsetY e.velocityY dt e.decelerationRate 0 maxY
    let e1 := { e with offsetY := s.offset, velocityY := s.velocity }
    if s.finished then
      if ScrollEngine.isOverscrolled e1.offsetY 0 maxY then (e1.startBounce, false)
      else if e1.snapInterval > 0 then (e1.startSnap false, false)
      else (e1, true)
    else (e1, false)

/-- Model of `ScrollEngine::stepBounce(dt, maxX, maxY)`. -/
noncomputable def ScrollEngine.stepBounce (e : ScrollEngine) (dt maxX maxY : ℝ) :
    ScrollEngine × Bool :=
  if e.horizontal then
    let target := clampf e.offsetX 0 maxX
    let s := springStep e.offsetX e.velocityX target dt
    ({ e with offsetX := s.offset, velocityX := s.velocity }, s.finished)
  else
    let target := clampf e.offsetY 0 maxY
    let s := springStep e.offsetY e.velocityY target dt
    ({ e with offsetY := s.offset, velocityY := s.velocity }, s.finished)

/-- Model of `ScrollEngine::stepSnap(dt)`. -/
noncomputable def ScrollEngine.stepSnap (e : ScrollEngine) (dt : ℝ) :
    ScrollEngine × Bool :=
  let sx := springStep e.offsetX e.velocityX e.snapTargetX dt
  let sy := springStep e.offsetY e.velocityY e.snapTargetY dt
  ({ e with offsetX := sx.offset, velocityX := sx.velocity,
            offsetY := sy.offset, velocityY := sy.velocity },
   sx.finished && sy.finished)

/-- Model of `ScrollEngine::needsTick()`. -/
def ScrollEngine.needsTick (e : ScrollEngine) : Prop :=
  e.phase ≠ .idle ∧ e.phase ≠ .dragging

instance (e : ScrollEngine) : Decidable e.needsTick := by
  unfold ScrollEngine.needsTick; infer_instance

/-- Model of `ScrollEngine::commitOffset()` (the callback part; the node-field
write-back is outside the model): invokes the scroll callback with no
exception handler. -/
noncomputable def ScrollEngine.commitOffset (e : ScrollEngine) : EngineStep :=
  ⟨e, [.scroll e.offsetX e.offsetY], callUnguarded e.onScrollThrows⟩

/-- Model of `ScrollEngine::tick(timestamp)`: clamps the frame delta to 32 ms
(16.67 ms on the first frame), steps the physics of the current phase,
commits the offset (firing the unguarded scroll callback — if it throws,
the exception escapes and the finished-phase transition below is skipped),
and on completion enters Idle and fires the scroll-end callback. -/
noncomputable def ScrollEngine.tick (e : ScrollEngine) (timestamp : ℝ) : EngineStep :=
  if ¬ e.needsTick then ⟨e, [], false⟩
  else
    let dt := if e.lastTimestamp > 0 then min (timestamp - e.lastTimestamp) 32
              else 16.67
    let e0 := { e with lastTimestamp := timestamp }
    let maxX := e0.maxScrollX
    let maxY := e0.maxScrollY
    let stepped : ScrollEngine × Bool :=
      match e0.phase with
      | .decelerating => e0.stepDeceleration dt maxX maxY
      | .bouncing => e0.stepBounce dt maxX maxY
      | .snapping => e0.stepSnap dt
      | _ => (e0, false)
    match e0.phase with
    | .idle => ⟨e0, [], false⟩
    | .dragging => ⟨e0, [], false⟩
    | _ =>
      let e1 := stepped.1
      let c := e1.commitOffset
      if c.escaped then ⟨e1, c.events, true⟩
      else if stepped.2 then
        let e2 := { e1 with phase := .idle, lastTimestamp := 0 }
        ⟨e2, c.events ++ [.scrollEnd e2.offsetX e2.offsetY],
         callUnguarded e2.onScrollEndThrows⟩
      else ⟨e1, c.events, false⟩

/- ----------------------------------------------------------------------
   AnimationTicker.h — property animations
   ---------------------------------------------------------------------- -/

/-- Model of `DriverType`. -/
inductive DriverType where
  | timing
  | spring
  | decay
  deriving Repr, DecidableEq

/-- Model of `Animation` state (the node back-reference and the animated property
name are outside the model: `applyValue` only copies `currentValue` into
the node). -/
structure Animation where
  driverType : DriverType := .timing
  fromValue : ℝ := 0
  toValue : ℝ := 0
  currentValue : ℝ := 0
  startTime : ℝ := 0
  started : Bool := false
  finished : Bool := false
  duration : ℝ := 300
  easing : ℝ → ℝ := fun t => t
  springTension : ℝ := 170
  springFriction : ℝ := 26
  springVelocity : ℝ := 0
  springMass : ℝ := 1
  decayVelocity : ℝ := 0
  decayRate : ℝ := 0.998

/-- Model of `Animation::tickTiming(elapsed)`. -/
noncomputable def Animation.tickTiming (a : Animation) (elapsed : ℝ) : Animation :=
  if a.duration ≤ 0 then { a with currentValue := a.toValue, finished := true }
  else
    let t := min (elapsed / a.duration) 1
    let progress := a.easing t
    let a1 := { a with currentValue := a.fromValue + (a.toValue - a.fromValue) * progress }
    if t ≥ 1 then { a1 with currentValue := a1.toValue, finished := true } else a1

/-- Model of `Animation::tickSpring(dt)`: one explicit Euler step of the damped
spring (`accel = (-tension*displacement - friction*velocity) / mass`),
settling once within 0.5 units and under 0.01 units/ms of the target. -/
noncomputable def Animation.tickSpring (a : Animation) (dt : ℝ) : Animation :=
  let dtSec := dt / 1000
  let displacement := a.currentValue - a.toValue
  let springForce := -a.springTension * displacement
  let velPxSec := a.springVelocity * 1000
  let dampingForce := -a.springFriction * velPxSec
  let accel := (springForce + dampingForce) / a.springMass
  let velPxSec1 := velPxSec + accel * dtSec
  let v1 := velPxSec1 / 1000
  let cur1 := a.currentValue + v1 * dt
  if |cur1 - a.toValue| < 0.5 ∧ |v1| < 0.01 then
    { a with currentValue := a.toValue, springVelocity := 0, finished := true }
  else { a with currentValue := cur1, springVelocity := v1 }

/-- Model of `Animation::tickDecay(elapsed)`. -/
noncomputable def Animation.tickDecay (a : Animation) (elapsed : ℝ) : Animation :=
  let friction := a.decayRate ^ elapsed
  let a1 := { a with
    currentValue := a.fromValue + a.decayVelocity * (1 - friction) / (1 - a.decayRate) }
  if |a.decayVelocity * friction| < 0.05 then { a1 with finished := true } else a1

/-- The time step `Animation::tick` hands to `tickSpring`:
`min(timestamp - (startTime > 0 ? startTime : timestamp), 32.0f)` — the
elapsed time since the animation start (not since the previous tick),
capped at 32 ms. -/
noncomputable def Animation.springDt (startTime timestamp : ℝ) : ℝ :=
  min (timestamp - (if startTime > 0 then startTime else timestamp)) 32

/-- Model of `Animation::tick(timestamp)` (the `applyValue` node write-back is
outside the model). -/
noncomputable def Animation.tick (a : Animation) (timestamp : ℝ) : Animation :=
  if a.finished then a
  else
    let a1 := if ¬ a.started then { a with startTime := timestamp, started := true }
              else a
    let elapsed := timestamp - a1.startTime
    match a1.driverType with
    | .timing => a1.tickTiming elapsed
    | .spring => a1.tickSpring (Animation.springDt a1.startTime timestamp)
    | .decay => a1.tickDecay elapsed


/- ----------------------------------------------------------------------
   Auxiliary predicates used by the theorems
   ---------------------------------------------------------------------- -/

/-- The spring animation loop: the n-th state (offset, velocity) obtained
by repeatedly feeding `springStep`'s result back into itself with a fixed
target and a fixed per-step `dt` (as `ScrollEngine::stepSnap` /
`stepBounce` do each frame). -/
noncomputable def springIter (target dt : ℝ) (s : ℝ × ℝ) : ℕ → ℝ × ℝ
  | 0 => s
  | n + 1 =>
    let r := springStep (springIter target dt s n).1 (springIter target dt s n).2
      target dt
    (r.offset, r.velocity)

/-- Displacement component of the exact critically-damped flow with
omega = 20 at time `t` seconds: the closed form of the un-snapped spring
iteration, used to prove its convergence. -/
noncomputable def flowD (d v t : ℝ) : ℝ :=
  (d + (v + 20 * d) * t) * Real.exp (-(20 * t))

/-- Velocity component of the exact critically-damped flow with
omega = 20 at time `t` seconds. -/
noncomputable def flowV (d v t : ℝ) : ℝ :=
  ((v + 20 * d) - 20 * (d + (v + 20 * d) * t)) * Real.exp (-(20 * t))

/-- The `VelocityTracker` data invariant: at most `MAX_SAMPLES = 20`
samples, strictly increasing timestamps, all bounded by the last accepted
timestamp. -/
def TrackerInv (t : VelocityTracker) : Prop :=
  t.samples.length ≤ 20 ∧
  t.samples.Chain' (fun a b => a.timestamp < b.timestamp) ∧
  ∀ s ∈ t.samples, s.timestamp ≤ t.lastTs

end Zilol

namespace Zilol

/- ----------------------------------------------------------------------
   Theorems
   ---------------------------------------------------------------------- -/

lemma trackerInv_addPoint (t : VelocityTracker) (ts pos : ℝ)
    (h : TrackerInv t) : TrackerInv (t.addPoint ts pos) := by
  obtain ⟨hlen, hchain, hbound⟩ := h
  unfold VelocityTracker.addPoint
  split
  · exact ⟨hlen, hchain, hbound⟩
  · rename_i hguard
    push_neg at hguard
    have hlast : ∀ s ∈ t.samples, s.timestamp < ts := by
      intro s hs
      rcases le_or_lt ts t.lastTs with hle | hlt
      · have hempty := hguard hle
        simp only [ne_eq, Bool.not_eq_false, List.isEmpty_iff] at hempty
        simp [hempty] at hs
      · exact lt_of_le_of_lt (hbound s hs) hlt
    have hchain2 : List.Chain' (fun a b : VelSample => a.timestamp < b.timestamp)
        (t.samples ++ [⟨ts, pos⟩]) := by
      rw [List.chain'_append]
      refine ⟨hchain, List.chain'_singleton _, ?_⟩
      intro x hx y hy
      simp only [List.head?_cons, Option.mem_def, Option.some.injEq] at hy
      subst hy
      exact hlast x (List.mem_of_mem_getLast? hx)
    have hmem2 : ∀ s ∈ t.samples ++ [(⟨ts, pos⟩ : VelSample)], s.timestamp ≤ ts := by
      intro s hs
      rcases List.mem_append.mp hs with hmem | hmem
      · exact (hlast s hmem).le
      · simp at hmem
        subst hmem
        rfl
    by_cases hlong : (t.samples ++ [(⟨ts, pos⟩ : VelSample)]).length > 20
    · refine ⟨?_, ?_, ?_⟩ <;> simp only [hlong, if_pos]
      · simpa using hlen
      · exact hchain2.tail
      · intro s hs
        exact hmem2 s (List.mem_of_mem_tail hs)
    · refine ⟨?_, ?_, ?_⟩ <;> simp only [hlong, if_neg, not_false_iff]
      · exact Nat.not_lt.mp hlong
      · exact hchain2
      · exact hmem2

/-- C9: over any sequence of `addPoint` calls the stored sample sequence
keeps at most 20 samples in strictly increasing timestamp order; a sample
whose timestamp is ≤ the last recorded timestamp is rejected whenever at
least one sample exists; and an accepted sample that pushes the count past
20 evicts the oldest sample. -/
theorem velocityTracker_addPoint_invariant :
    (∀ calls : List (ℝ × ℝ),
      (calls.foldl (fun t c => t.addPoint c.1 c.2)
          VelocityTracker.reset).samples.length ≤ 20 ∧
        List.Chain' (fun a b : VelSample => a.timestamp < b.timestamp)
          (calls.foldl (fun t c => t.addPoint c.1 c.2)
            VelocityTracker.reset).samples) ∧
    (∀ (t : VelocityTracker) (ts pos : ℝ),
      ts ≤ t.lastTs → t.samples ≠ [] → t.addPoint ts pos = t) ∧
    (∀ (t : VelocityTracker) (ts pos : ℝ),
      t.lastTs < ts → t.samples.length = 20 →
      (t.addPoint ts pos).samples = t.samples.tail ++ [⟨ts, pos⟩]) := by
  refine ⟨?_, ?_, ?_⟩
  · have hinv : ∀ (calls : List (ℝ × ℝ)) (t : VelocityTracker), TrackerInv t →
        TrackerInv (calls.foldl (fun t c => t.addPoint c.1 c.2) t) := by
      intro calls
      induction calls with
      | nil => intro t ht; exact ht
      | cons c rest ih => intro t ht; exact ih _ (trackerInv_addPoint _ _ _ ht)
    intro calls
    have h0 : TrackerInv VelocityTracker.reset :=
      ⟨by simp [VelocityTracker.reset, TrackerInv],
       by simp [VelocityTracker.reset],
       by simp [VelocityTracker.reset]⟩
    obtain ⟨h1, h2, _⟩ := hinv calls _ h0
    exact ⟨h1, h2⟩
  · intro t ts pos hle hne
    have hempty : t.samples.isEmpty = false := by
      cases h : t.samples with
      | nil => exact absurd h hne
      | cons a l => rfl
    unfold VelocityTracker.addPoint
    simp [hle, hempty]
  · intro t ts pos hlt hlen
    have hnle : ¬ ts ≤ t.lastTs := not_le.mpr hlt
    unfold VelocityTracker.addPoint
    simp only [hnle, false_and, if_neg, not_false_iff]
    have hlong : (t.samples ++ [(⟨ts, pos⟩ : VelSample)]).length > 20 := by
      simp [hlen]
    simp only [hlong, if_pos]
    cases h : t.samples with
    | nil => rw [h] at hlen; simp at hlen
    | cons a l => simp

/-- Witness for C9: a sample at the already-recorded timestamp is
rejected, and an accepted sample on a full tracker evicts the oldest. -/
theorem velocityTracker_addPoint_invariant_witness :
    (VelocityTracker.addPoint ⟨[⟨1, 5⟩], 1⟩ 1 7 = ⟨[⟨1, 5⟩], 1⟩) ∧
    (VelocityTracker.addPoint ⟨List.replicate 20 ⟨0, 0⟩, 0⟩ 1 2).samples =
      (List.replicate 20 (⟨0, 0⟩ : VelSample)).tail ++ [⟨1, 2⟩] := by
  constructor
  · exact velocityTracker_addPoint_invariant.2.1 ⟨[⟨1, 5⟩], 1⟩ 1 7 le_rfl (by simp)
  · exact velocityTracker_addPoint_invariant.2.2 ⟨List.replicate 20 ⟨0, 0⟩, 0⟩ 1 2
      (by norm_num) (by simp)

/-- C6: hit-testing a scroll container translates the touch point from
viewport space to content space by adding the current scroll offset before
testing the children; concretely, a scroll container at the viewport
origin scrolled by (0, 50) with a child at content-space y = 60 is hit at
viewport y = 10 but not at viewport y = 70. -/
theorem hitTest_scroll_content_space :
    (∀ (cb : Int → Bool) (n h : SkiaNode) (x y : ℚ),
      n.visible = true → n.display ≠ "none" → n.nodeType = NodeType.scroll →
      ¬(x < n.layout.absoluteX ∨ x > n.layout.absoluteX + n.layout.width ∨
        y < n.layout.absoluteY ∨ y > n.layout.absoluteY + n.layout.height) →
      hitTestChildren cb n.children (x + n.scrollX) (y + n.scrollY) = some h →
      hitTestNode cb n x y = some h) ∧
    hitTestNode noCallbacks hitContainer 5 10 = some hitChild ∧
    hitTestNode noCallbacks hitContainer 5 70 = none := by
  have hfn : (("flex" : String) = "none") = False := by decide
  refine ⟨?_, ?_, ?_⟩
  · intro cb n h x y hvis hdisp htype hbounds hchild
    cases n with
    | mk id visible display layout nodeType sx sy tc cs =>
      simp only [SkiaNode.visible] at hvis
      simp only [SkiaNode.display] at hdisp
      simp only [SkiaNode.nodeType] at htype
      simp only [SkiaNode.layout] at hbounds
      simp only [SkiaNode.children, SkiaNode.scrollX, SkiaNode.scrollY] at hchild
      subst hvis htype
      rw [hitTestNode]
      simp [hdisp, hbounds, hchild]
  · norm_num [hitTestNode, hitTestChildren, hitContainer, hitChild, noCallbacks, hfn,
      SkiaNode.layout, SkiaNode.nodeType, SkiaNode.scrollX, SkiaNode.scrollY,
      SkiaNode.touchable, SkiaNode.id, SkiaNode.children, SkiaNode.visible,
      SkiaNode.display]
  · norm_num [hitTestNode, hitTestChildren, hitContainer, hitChild, noCallbacks, hfn,
      SkiaNode.layout, SkiaNode.nodeType, SkiaNode.scrollX, SkiaNode.scrollY,
      SkiaNode.touchable, SkiaNode.id, SkiaNode.children, SkiaNode.visible,
      SkiaNode.display]

/-- Witness for C6: the content-space translation rule applied to the
concrete container. -/
theorem hitTest_scroll_content_space_witness :
    hitTestNode noCallbacks hitContainer 5 10 = some hitChild := by
  have hfn : (("flex" : String) = "none") = False := by decide
  exact hitTest_scroll_content_space.1 noCallbacks hitContainer hitChild 5 10
    rfl (by simp [hitContainer, SkiaNode.display]) rfl
    (by norm_num [hitContainer, SkiaNode.layout])
    (by norm_num [hitTestChildren, hitTestNode, hitContainer, hitChild, noCallbacks, hfn,
      SkiaNode.layout, SkiaNode.nodeType, SkiaNode.scrollX, SkiaNode.scrollY,
      SkiaNode.touchable, SkiaNode.id, SkiaNode.children, SkiaNode.visible,
      SkiaNode.display])

/-- C7: with the default 10-unit activation threshold, a began at (0,0)
followed by a move to (5,5) (distance √50 < 10) leaves the pan recognizer
in Possible and fires no callback; the subsequent move to (20,0)
(distance 20 ≥ 10) activates the pan — Possible → Began (fires onStart
exactly once) → Changed. -/
theorem panRecognizer_activation_scenario (pid : ℤ) (t1 t2 t3 : ℝ) :
    (((({} : PanRecognizer).onTouchEvent 0 0 0 pid t1).1.state = .possible ∧
      (({} : PanRecognizer).onTouchEvent 0 0 0 pid t1).2 = []) ∧
     (((({} : PanRecognizer).onTouchEvent 0 0 0 pid t1).1.onTouchEvent
          1 5 5 pid t2).1.state = .possible ∧
      ((({} : PanRecognizer).onTouchEvent 0 0 0 pid t1).1.onTouchEvent
          1 5 5 pid t2).2 = []) ∧
     ((((({} : PanRecognizer).onTouchEvent 0 0 0 pid t1).1.onTouchEvent
          1 5 5 pid t2).1.onTouchEvent 1 20 0 pid t3).1.state = .changed ∧
      ((((({} : PanRecognizer).onTouchEvent 0 0 0 pid t1).1.onTouchEvent
          1 5 5 pid t2).1.onTouchEvent 1 20 0 pid t3).2 =
        [GFire.start { x := 20, y := 0, absoluteX := 20, absoluteY := 0,
                       translationX := 20, translationY := 0,
                       numberOfPointers := 1 }]))) := by
  have h1 : ¬ ((10 : ℝ) ≤ Real.sqrt 50) :=
    not_le.mpr ((Real.sqrt_lt' (by norm_num)).mpr (by norm_num))
  have h2 : (10 : ℝ) ≤ Real.sqrt 400 :=
    (Real.le_sqrt' (by norm_num)).mpr (by norm_num)
  have h3 : (GestureState.possible = GestureState.changed) = False := by
    simp only [reduceCtorEq]
  norm_num [PanRecognizer.onTouchEvent, h1, h2, h3]

/-- Counterexample to C8 as stated: with `requiredTaps = 2`, a quick first
tap leaves the counter at 1; a second touch within the allowed delay that
is then held 400 ms (> 300 ms) is released — the counter does not keep its
previous value 1, it is reset to 0. -/
theorem tapRecognizer_heldTooLong_counterexample :
    let r0 : TapRecognizer := { requiredTaps := 2 }
    let s1 := r0.onTouchEvent 0 0 0 1 0
    let s2 := s1.1.onTouchEvent 2 0 0 1 100
    let s3 := s2.1.onTouchEvent 0 0 0 1 200
    let s4 := s3.1.onTouchEvent 2 0 0 1 600
    s3.1.tapCount = 1 ∧ s4.1.tapCount = 0 ∧ s4.2 = [] ∧ s4.1.state = .failed := by
  norm_num [TapRecognizer.onTouchEvent]

/-- C8 (amended): every began/ended pair on the tracked pointer whose hold
duration exceeds the 300 ms maximum resets the tap counter to zero
(rather than keeping its previous value), fires no callback, and sets the
recognizer state to Failed. -/
theorem tapRecognizer_heldTooLong_resets (r : TapRecognizer) (x y : ℝ)
    (pid : ℤ) (now : ℝ)
    (hactive : r.touch.active = true) (hpid : r.touch.pointerId = pid)
    (hhold : now - r.touch.startTimeMs > r.maxDurationMs) :
    r.onTouchEvent 2 x y pid now =
      ({ r with touch := { r.touch with active := false }, tapCount := 0,
                state := .failed }, []) := by
  unfold TapRecognizer.onTouchEvent
  norm_num [hactive, hpid, hhold]

/-- Witness for the amended C8: a recognizer holding one recorded tap,
released 400 ms after the touch began, ends with a zero counter in the
Failed state. -/
theorem tapRecognizer_heldTooLong_resets_witness :
    ({ requiredTaps := 2, tapCount := 1, lastTapTimeMs := 100,
       touch := { pointerId := 1, startTimeMs := 200, active := true } }
        : TapRecognizer).onTouchEvent 2 0 0 1 600 =
      (({ requiredTaps := 2, tapCount := 0, lastTapTimeMs := 100,
          touch := { pointerId := 1, startTimeMs := 200, active := false },
          state := .failed } : TapRecognizer), []) := by
  have h := tapRecognizer_heldTooLong_resets
    ({ requiredTaps := 2, tapCount := 1, lastTapTimeMs := 100,
       touch := { pointerId := 1, startTimeMs := 200, active := true } })
    0 0 1 600 rfl rfl (by norm_num)
  simpa using h

/-- C10: a began event arriving while a pinch (resp. rotation) recognizer
already has two active pointers does not track the new pointer, but still
re-records the baseline inter-point distance (resp. angle) from the two
already-tracked points and fires onStart a second time. -/
theorem pinchRotation_thirdPointer_refires :
    (∀ (r : PinchRecognizer) (x y : ℝ) (pid : ℤ), r.numActive = 2 →
      r.onTouchEvent 0 x y pid =
        ({ r with
            initialDist :=
              (if touchDistance r.touch1 r.touch2 < 1 then 1
               else touchDistance r.touch1 r.touch2),
            state := .changed },
         [GFire.start { scale := 1, focalX := (r.touch1.x + r.touch2.x) / 2,
                        focalY := (r.touch1.y + r.touch2.y) / 2,
                        numberOfPointers := 2 }])) ∧
    (∀ (r : RotationRecognizer) (x y : ℝ) (pid : ℤ), r.numActive = 2 →
      r.onTouchEvent 0 x y pid =
        ({ r with
            initialAngle := touchAngle r.touch1 r.touch2,
            state := .changed },
         [GFire.start { rotation := 0, focalX := (r.touch1.x + r.touch2.x) / 2,
                        focalY := (r.touch1.y + r.touch2.y) / 2,
                        numberOfPointers := 2 }])) := by
  constructor
  · intro r x y pid h2
    unfold PinchRecognizer.onTouchEvent
    norm_num [h2]
  · intro r x y pid h2
    unfold RotationRecognizer.onTouchEvent
    norm_num [h2]

/-- Witness for C10 at a concrete two-pointer pinch and rotation state. -/
theorem pinchRotation_thirdPointer_refires_witness :
    ({ touch1 := { pointerId := 1, x := 0, y := 0, active := true },
       touch2 := { pointerId := 2, x := 3, y := 4, active := true },
       numActive := 2, state := .changed } : PinchRecognizer).onTouchEvent 0 7 7 3 =
      (({ touch1 := { pointerId := 1, x := 0, y := 0, active := true },
          touch2 := { pointerId := 2, x := 3, y := 4, active := true },
          numActive := 2,
          initialDist :=
            (if touchDistance { pointerId := 1, x := 0, y := 0, active := true }
                 { pointerId := 2, x := 3, y := 4, active := true } < 1 then 1
             else touchDistance { pointerId := 1, x := 0, y := 0, active := true }
                 { pointerId := 2, x := 3, y := 4, active := true }),
          state := .changed } : PinchRecognizer),
       [GFire.start { scale := 1, focalX := (0 + 3) / 2, focalY := (0 + 4) / 2,
                      numberOfPointers := 2 }]) := by
  have h := pinchRotation_thirdPointer_refires.1
    ({ touch1 := { pointerId := 1, x := 0, y := 0, active := true },
       touch2 := { pointerId := 2, x := 3, y := 4, active := true },
       numActive := 2, state := .changed }) 7 7 3 rfl
  simpa using h

lemma decelNextVel_zero (dtMs rate : ℝ) : decelNextVel 0 dtMs rate = 0 := by
  unfold decelNextVel
  simp

lemma decelDisplacement_zero (dtMs rate : ℝ) : decelDisplacement 0 dtMs rate = 0 := by
  unfold decelDisplacement
  split <;> simp

lemma decelerationStep_zero_velocity (offset dtMs rate minOff maxOff : ℝ) :
    decelerationStep offset 0 dtMs rate minOff maxOff =
      ⟨clampf offset minOff maxOff, 0, true⟩ := by
  unfold decelerationStep
  rw [decelNextVel_zero, decelDisplacement_zero]
  norm_num

lemma clampf_not_overscrolled (v lo hi : ℝ) (h : lo ≤ hi) :
    ¬ ScrollEngine.isOverscrolled (clampf v lo hi) lo hi := by
  unfold clampf ScrollEngine.isOverscrolled
  split_ifs with h1 h2
  · push_neg
    exact ⟨le_refl lo, h⟩
  · push_neg
    exact ⟨h, le_refl hi⟩
  · push_neg
    exact ⟨not_lt.mp h1, not_lt.mp h2⟩

/-- C3: for `rate < 1`, a deceleration step whose stepped speed
`|velocity·rate^dt|` falls below 20 px/sec finishes with zero velocity and
the offset clamped into `[minOff, maxOff]`; a step still at or above
20 px/sec whose new offset exits the bounds finishes with the offset left
unclamped and the stepped velocity preserved. -/
theorem decelerationStep_termination (offset velocity dtMs rate minOff maxOff : ℝ)
    (hrate : rate < 1) :
    (|velocity * rate ^ dtMs| < 20 →
      decelerationStep offset velocity dtMs rate minOff maxOff =
        ⟨clampf (offset + decelDisplacement velocity dtMs rate) minOff maxOff,
         0, true⟩) ∧
    (20 ≤ |velocity * rate ^ dtMs| →
      (offset + decelDisplacement velocity dtMs rate < minOff ∨
       offset + decelDisplacement velocity dtMs rate > maxOff) →
      decelerationStep offset velocity dtMs rate minOff maxOff =
        ⟨offset + decelDisplacement velocity dtMs rate,
         velocity * rate ^ dtMs, true⟩) := by
  constructor
  · intro h
    unfold decelerationStep decelNextVel
    rw [if_pos h]
  · intro h1 h2
    unfold decelerationStep decelNextVel
    rw [if_neg (not_lt.mpr h1), if_pos h2]

/-- Witness for C3: a zero-velocity step finishes clamped; a fast step
(100 px/sec, zero-length dt) off the lower bound finishes unclamped. -/
theorem decelerationStep_termination_witness :
    decelerationStep 5 0 16 (1 / 2) 0 10 =
      ⟨clampf (5 + decelDisplacement 0 16 (1 / 2)) 0 10, 0, true⟩ ∧
    decelerationStep (-5) 100 0 (1 / 2) 0 10 =
      ⟨(-5) + decelDisplacement 100 0 (1 / 2), 100 * (1 / 2 : ℝ) ^ (0 : ℝ), true⟩ := by
  have hd : decelDisplacement 100 0 (1 / 2) = 0 := by
    unfold decelDisplacement
    split <;> simp [Real.rpow_zero]
  constructor
  · exact (decelerationStep_termination 5 0 16 (1 / 2) 0 10 (by norm_num)).1
      (by norm_num)
  · exact (decelerationStep_termination (-5) 100 0 (1 / 2) 0 10 (by norm_num)).2
      (by rw [Real.rpow_zero]; norm_num) (by rw [hd]; norm_num)

/-- C5 is contradicted by the code (`Animation::tick` passes
`min(timestamp - startTime, 32)` — the elapsed time since the animation
START — to `tickSpring`, despite the comment saying the step is per-frame
and despite the unused `lastTickTime_` member): a spring animation from
100 to 0 ticked at timestamps 100, 116, 132 integrates its third step
with dt = 32 ms, not the 16 ms elapsed since the previous tick, and the
two step sizes produce different values. -/
theorem animationSpring_dt_since_start :
    let a0 : Animation := { driverType := .spring, fromValue := 100, toValue := 0,
                            currentValue := 100 }
    let a1 := a0.tick 100
    let a2 := a1.tick 116
    a2.tick 132 = a2.tickSpring (Animation.springDt a2.startTime 132) ∧
    Animation.springDt a2.startTime 132 = 32 ∧
    (132 : ℝ) - 116 = 16 ∧
    (a2.tickSpring 32).currentValue ≠ (a2.tickSpring 16).currentValue := by
  norm_num [Animation.tick, Animation.tickSpring, Animation.springDt, abs_lt]

/-- Counterexample to C2 as stated: the scroll engine's onScroll callback
is invoked with no exception handler, so when it throws during a `tick`
that would finish the deceleration, the exception escapes and the
Decelerating → Idle transition is NOT completed — unlike the same tick
with a normally returning callback. -/
theorem scrollCallback_exception_counterexample :
    let e : ScrollEngine := { phase := .decelerating, offsetY := 5, viewportH := 100,
                              contentH := 200, onScrollThrows := true }
    (e.tick 100).escaped = true ∧
    (e.tick 100).engine.phase = .decelerating ∧
    (({ phase := .decelerating, offsetY := 5, viewportH := 100,
        contentH := 200, onScrollThrows := false } : ScrollEngine).tick 100).engine.phase
      = .idle := by
  have hd1 : (ScrollPhase.decelerating = ScrollPhase.idle) = False := by
    simp only [reduceCtorEq]
  have hd2 : (ScrollPhase.decelerating = ScrollPhase.dragging) = False := by
    simp only [reduceCtorEq]
  norm_num [ScrollEngine.tick, ScrollEngine.needsTick, ScrollEngine.stepDeceleration,
    ScrollEngine.commitOffset, ScrollEngine.maxScrollX, ScrollEngine.maxScrollY,
    decelerationStep_zero_velocity, clampf, ScrollEngine.isOverscrolled,
    callUnguarded, hd1, hd2]

/-- C2 (amended): gesture onStart/onUpdate/onEnd, press callbacks and the
animation completion callback are invoked inside `try {...} catch (...) {}`
so a thrown exception never escapes those call sites; the scroll engine's
onScroll/onScrollEnd callbacks are invoked with no handler, so an
exception thrown by onScroll escapes `tick` and aborts the phase
transition the engine would otherwise complete (while a normally
returning callback lets the transition to Idle complete). -/
theorem callbackException_swallowed_or_escapes :
    (∀ b : Bool, callSwallowed b = false) ∧
    (∀ (e : ScrollEngine) (ts : ℝ),
      e.phase = .decelerating → e.horizontal = false → e.velocityY = 0 →
      e.snapInterval ≤ 0 →
      ((e.onScrollThrows = true →
        (e.tick ts).escaped = true ∧ (e.tick ts).engine.phase = .decelerating) ∧
       (e.onScrollThrows = false → (e.tick ts).engine.phase = .idle))) := by
  constructor
  · intro b
    rfl
  · intro e ts hphase hhoriz hvel hsnap
    have hmaxY : (0 : ℝ) ≤ max 0 (e.contentH - e.viewportH) := le_max_left _ _
    have hnotover : ¬ ScrollEngine.isOverscrolled
        (clampf e.offsetY 0 (max 0 (e.contentH - e.viewportH))) 0
        (max 0 (e.contentH - e.viewportH)) :=
      clampf_not_overscrolled _ _ _ hmaxY
    have hnsnap : ¬ e.snapInterval > 0 := not_lt.mpr hsnap
    constructor
    · intro hthrow
      constructor <;>
        simp [ScrollEngine.tick, ScrollEngine.needsTick, hphase, hhoriz, hvel,
          ScrollEngine.stepDeceleration, ScrollEngine.maxScrollX,
          ScrollEngine.maxScrollY, decelerationStep_zero_velocity, hnotover,
          hnsnap, ScrollEngine.commitOffset, callUnguarded, hthrow]
    · intro hthrow
      simp [ScrollEngine.tick, ScrollEngine.needsTick, hphase, hhoriz, hvel,
        ScrollEngine.stepDeceleration, ScrollEngine.maxScrollX,
        ScrollEngine.maxScrollY, decelerationStep_zero_velocity, hnotover,
        hnsnap, ScrollEngine.commitOffset, callUnguarded, hthrow]

/-- Witness for the amended C2 at a concrete decelerating engine. -/
theorem callbackException_swallowed_or_escapes_witness :
    callSwallowed true = false ∧
    ((({ phase := .decelerating, offsetY := 7, viewportH := 50,
         contentH := 150, onScrollThrows := true } : ScrollEngine).tick 64).escaped
        = true ∧
     (({ phase := .decelerating, offsetY := 7, viewportH := 50,
         contentH := 150, onScrollThrows := true } : ScrollEngine).tick 64).engine.phase
        = .decelerating) := by
  refine ⟨callbackException_swallowed_or_escapes.1 true, ?_⟩
  exact (callbackException_swallowed_or_escapes.2
    ({ phase := .decelerating, offsetY := 7, viewportH := 50,
       contentH := 150, onScrollThrows := true }) 64 rfl rfl rfl (by norm_num)).1 rfl

lemma springNextOff_eq_flowD (offset velocity target dtMs : ℝ) :
    springNextOff offset velocity target dtMs 20 =
      target + flowD (offset - target) velocity (dtMs / 1000) := by
  unfold springNextOff flowD
  rw [show -(20 * (dtMs / 1000)) = -20 * (dtMs / 1000) by ring]
  ring

lemma springNextVel_eq_flowV (offset velocity target dtMs : ℝ) :
    springNextVel offset velocity target dtMs 20 =
      flowV (offset - target) velocity (dtMs / 1000) := by
  unfold springNextVel flowV
  rw [show -(20 * (dtMs / 1000)) = -20 * (dtMs / 1000) by ring]

lemma flowD_zero (d v : ℝ) : flowD d v 0 = d := by
  unfold flowD
  simp

lemma flowV_zero (d v : ℝ) : flowV d v 0 = v := by
  unfold flowV
  simp

lemma flowD_step (d v s t : ℝ) :
    flowD (flowD d v s) (flowV d v s) t = flowD d v (s + t) := by
  unfold flowD flowV
  rw [show -(20 * (s + t)) = -(20 * s) + -(20 * t) by ring, Real.exp_add]
  ring

lemma flowV_step (d v s t : ℝ) :
    flowV (flowD d v s) (flowV d v s) t = flowV d v (s + t) := by
  unfold flowD flowV
  rw [show -(20 * (s + t)) = -(20 * s) + -(20 * t) by ring, Real.exp_add]
  ring

lemma springIter_closed_form (target dt x0 v0 : ℝ) (n : ℕ) :
    springIter target dt (x0, v0) n = (target, 0) ∨
    springIter target dt (x0, v0) n =
      (target + flowD (x0 - target) v0 (n * (dt / 1000)),
       flowV (x0 - target) v0 (n * (dt / 1000))) := by
  induction n with
  | zero =>
    right
    simp [springIter, flowD_zero, flowV_zero]
  | succ n ih =>
    rcases ih with h | h
    · left
      rw [springIter, h]
      unfold springStep
      rw [springNextOff_eq_flowD, springNextVel_eq_flowV]
      norm_num [flowD, flowV]
    · rw [springIter, h]
      have hoff : springNextOff (target + flowD (x0 - target) v0 (n * (dt / 1000)))
          (flowV (x0 - target) v0 (n * (dt / 1000))) target dt 20 =
          target + flowD (x0 - target) v0 ((n + 1 : ℕ) * (dt / 1000)) := by
        rw [springNextOff_eq_flowD, add_sub_cancel_left, flowD_step]
        congr 2
        push_cast
        ring
      have hvel : springNextVel (target + flowD (x0 - target) v0 (n * (dt / 1000)))
          (flowV (x0 - target) v0 (n * (dt / 1000))) target dt 20 =
          flowV (x0 - target) v0 ((n + 1 : ℕ) * (dt / 1000)) := by
        rw [springNextVel_eq_flowV, add_sub_cancel_left, flowV_step]
        congr 2
        push_cast
        ring
      unfold springStep
      dsimp only
      rw [hoff, hvel]
      split_ifs
      · left
        rfl
      · right
        rfl

lemma tendsto_affine_mul_exp_neg (a b c : ℝ) (hc : 0 < c) :
    Filter.Tendsto (fun x : ℝ => (a + b * x) * Real.exp (-(c * x)))
      Filter.atTop (nhds 0) := by
  have h1 : Filter.Tendsto (fun x : ℝ => c * x) Filter.atTop Filter.atTop :=
    Filter.Tendsto.const_mul_atTop hc Filter.tendsto_id
  have h3 : Filter.Tendsto (fun x : ℝ => a * Real.exp (-(c * x)))
      Filter.atTop (nhds 0) := by
    have := (Real.tendsto_exp_neg_atTop_nhds_zero.comp h1).const_mul a
    simpa using this
  have h5 : Filter.Tendsto (fun x : ℝ => (b / c) * ((c * x) * Real.exp (-(c * x))))
      Filter.atTop (nhds 0) := by
    have h4 := (Real.tendsto_pow_mul_exp_neg_atTop_nhds_zero 1).comp h1
    have := h4.const_mul (b / c)
    simpa using this
  have hsum := h3.add h5
  rw [add_zero] at hsum
  refine hsum.congr fun x => ?_
  field_simp
  ring

lemma tendsto_flowD_nat (d v t : ℝ) (ht : 0 < t) :
    Filter.Tendsto (fun n : ℕ => flowD d v (n * t)) Filter.atTop (nhds 0) := by
  have hnat : Filter.Tendsto (fun n : ℕ => (n : ℝ) * t) Filter.atTop Filter.atTop :=
    Filter.Tendsto.atTop_mul_const ht tendsto_natCast_atTop_atTop
  have := (tendsto_affine_mul_exp_neg d (v + 20 * d) 20 (by norm_num)).comp hnat
  refine this.congr fun n => ?_
  simp [flowD, Function.comp]

lemma tendsto_flowV_nat (d v t : ℝ) (ht : 0 < t) :
    Filter.Tendsto (fun n : ℕ => flowV d v (n * t)) Filter.atTop (nhds 0) := by
  have hnat : Filter.Tendsto (fun n : ℕ => (n : ℝ) * t) Filter.atTop Filter.atTop :=
    Filter.Tendsto.atTop_mul_const ht tendsto_natCast_atTop_atTop
  have := (tendsto_affine_mul_exp_neg v (-20 * (v + 20 * d)) 20 (by norm_num)).comp hnat
  refine this.congr fun n => ?_
  unfold flowV
  simp only [Function.comp]
  ring

/-- C4: with any fixed per-step dt in (0, 64] and any fixed target, the
spring-step loop converges from every initial offset/velocity — past some
N every iterate's offset is within the 0.5-unit settle threshold of the
target (so it never diverges) — and a step whose next state is within the
0.5-unit and 20 px/sec thresholds reports finished with the offset snapped
exactly to the target and zero velocity. -/
theorem springStep_iteration_converges (target dt x0 v0 : ℝ)
    (hdt : 0 < dt) (hdt64 : dt ≤ 64) :
    (∃ N : ℕ, ∀ n, N ≤ n →
      |(springIter target dt (x0, v0) n).1 - target| < 0.5) ∧
    (∀ offset velocity : ℝ,
      |springNextOff offset velocity target dt 20 - target| < 0.5 →
      |springNextVel offset velocity target dt 20| < 20 →
      springStep offset velocity target dt = ⟨target, 0, true⟩) := by
  constructor
  · have ht : 0 < dt / 1000 := by positivity
    obtain ⟨N, hN⟩ := Metric.tendsto_atTop.mp
      (tendsto_flowD_nat (x0 - target) v0 (dt / 1000) ht) 0.5 (by norm_num)
    refine ⟨N, fun n hn => ?_⟩
    rcases springIter_closed_form target dt x0 v0 n with h | h
    · rw [h]
      norm_num
    · rw [h]
      have := hN n hn
      rw [Real.dist_eq, sub_zero] at this
      simpa using this
  · intro offset velocity h1 h2
    unfold springStep
    rw [if_pos ⟨h1, h2⟩]

/-- Witness for C4: the spring loop with dt = 16 ms from offset 1000,
velocity −500 toward target 0 settles within the threshold. -/
theorem springStep_iteration_converges_witness :
    (∃ N : ℕ, ∀ n, N ≤ n →
      |(springIter 0 16 (1000, -500) n).1 - 0| < 0.5) ∧
    (∀ offset velocity : ℝ,
      |springNextOff offset velocity 0 16 20 - 0| < 0.5 →
      |springNextVel offset velocity 0 16 20| < 20 →
      springStep offset velocity 0 16 = ⟨0, 0, true⟩) :=
  springStep_iteration_converges 0 16 1000 (-500) (by norm_num) (by norm_num)

/-- C1: in the Dragging phase, `onTouchEnded` with the matching pointer id
(and a normally returning end-drag callback) sets the release velocities
to the sign-inverted tracker velocities and selects the next phase in
priority order — Bouncing if the active-axis offset is outside
[0, maxScroll]; else Snapping when paging is enabled, with the snap target
computed by the page-target logic; else Snapping when a positive snap
interval is set; else Decelerating, unless the active-axis release speed
is below 20 px/sec, in which case the engine goes directly to Idle firing
the scroll-end callback. -/
theorem scrollEngine_onTouchEnded_phase_priority (e : ScrollEngine) (pid : ℤ)
    (hphase : e.phase = .dragging) (hpid : pid = e.activePointerId)
    (hnothrow : e.onScrollEndDragThrows = false) :
    (e.onTouchEnded pid).engine.velocityX = -(e.trackerX.getVelocity) ∧
    (e.onTouchEnded pid).engine.velocityY = -(e.trackerY.getVelocity) ∧
    (e.onTouchEnded pid).engine.phase =
      (if (if e.horizontal then e.offsetX else e.offsetY) < 0 ∨
          (if e.horizontal then e.offsetX else e.offsetY) >
            (if e.horizontal then e.maxScrollX else e.maxScrollY) then
        ScrollPhase.bouncing
       else if e.pagingEnabled then ScrollPhase.snapping
       else if e.snapInterval > 0 then ScrollPhase.snapping
       else if |if e.horizontal then -(e.trackerX.getVelocity)
                else -(e.trackerY.getVelocity)| < 20 then ScrollPhase.idle
       else ScrollPhase.decelerating) ∧
    (¬ ((if e.horizontal then e.offsetX else e.offsetY) < 0 ∨
        (if e.horizontal then e.offsetX else e.offsetY) >
          (if e.horizontal then e.maxScrollX else e.maxScrollY)) →
      e.pagingEnabled = true →
      (if e.horizontal then
        (e.onTouchEnded pid).engine.snapTargetX =
          findPageTarget e.offsetX (-(e.trackerX.getVelocity)) e.viewportW 0
            e.maxScrollX
       else
        (e.onTouchEnded pid).engine.snapTargetY =
          findPageTarget e.offsetY (-(e.trackerY.getVelocity)) e.viewportH 0
            e.maxScrollY)) ∧
    ((e.onTouchEnded pid).engine.phase = .idle →
      (e.onTouchEnded pid).events = [.endDrag, .scrollEnd e.offsetX e.offsetY]) := by
  have hdrag : (ScrollPhase.dragging ≠ ScrollPhase.dragging) = False := by simp
  cases hh : e.horizontal with
  | true =>
    simp only [ScrollEngine.onTouchEnded, hphase, hdrag, hpid, hnothrow,
      callUnguarded, ScrollEngine.startBounce, ScrollEngine.startSnap,
      ScrollEngine.startDeceleration, ScrollEngine.isOverscrolled,
      ScrollEngine.maxScrollX, ScrollEngine.maxScrollY, hh, if_true, if_false,
      eq_self_iff_true, true_and, false_and, and_true, and_false, not_false_iff,
      ne_eq, not_true, Bool.true_eq_false, Bool.false_eq_true, reduceCtorEq,
      reduceIte]
    split_ifs with hA hB hC hD
    all_goals refine ⟨rfl, rfl, rfl, ?_, ?_⟩
    all_goals
      first
        | (intro h1 h2
           first
             | rfl
             | (dsimp only; rfl)
             | exact absurd hA h1
             | exact absurd h2 hB)
        | (intro h1
           first
             | rfl
             | simp at h1)
  | false =>
    simp only [ScrollEngine.onTouchEnded, hphase, hdrag, hpid, hnothrow,
      callUnguarded, ScrollEngine.startBounce, ScrollEngine.startSnap,
      ScrollEngine.startDeceleration, ScrollEngine.isOverscrolled,
      ScrollEngine.maxScrollX, ScrollEngine.maxScrollY, hh, if_true, if_false,
      eq_self_iff_true, true_and, false_and, and_true, and_false, not_false_iff,
      ne_eq, not_true, Bool.true_eq_false, Bool.false_eq_true, reduceCtorEq,
      reduceIte]
    split_ifs with hA hB hC hD
    all_goals refine ⟨rfl, rfl, rfl, ?_, ?_⟩
    all_goals
      first
        | (intro h1 h2
           first
             | rfl
             | (dsimp only; rfl)
             | exact absurd hA h1
             | exact absurd h2 hB)
        | (intro h1
           first
             | rfl
             | simp at h1)

/-- Witness for C1: a vertical engine released with an (empty-tracker)
zero release velocity, in bounds, no paging and no snap interval goes
straight to Idle and fires the scroll-end callback. -/
theorem scrollEngine_onTouchEnded_phase_priority_witness :
    ((({ phase := .dragging, activePointerId := 1, decelerationRate := 1 }
        : ScrollEngine).onTouchEnded 1).engine.phase = ScrollPhase.idle) ∧
    ((({ phase := .dragging, activePointerId := 1, decelerationRate := 1 }
        : ScrollEngine).onTouchEnded 1).events = [.endDrag, .scrollEnd 0 0]) := by
  have h := scrollEngine_onTouchEnded_phase_priority
    ({ phase := .dragging, activePointerId := 1, decelerationRate := 1 }) 1 rfl rfl rfl
  have hv : (VelocityTracker.getVelocity {}) = 0 := by
    norm_num [VelocityTracker.getVelocity, VelocityTracker.pruneOld]
  obtain ⟨h1, h2, h3, h4, h5⟩ := h
  norm_num [hv, ScrollEngine.maxScrollX, ScrollEngine.maxScrollY] at h3
  exact ⟨h3, h5 h3⟩

end Zilol

